import Mathlib

/-!
# Shallow embedding of the transcribe.js client orchestrator

This file embeds the two client variants of the repository in Lean 4:

* `Page` — the presigned-upload variant (`src/frontend/src/app/page.tsx`):
  session state, `handleFileChange`, `changeNumSpeakers`, `handleSubmit`
  (presign → PUT upload → transcribe → duration probe), `cleanupFiles`
  and `handleDownloadDocx`.
* `Part000` — the client-side transcoding variant (`src/unnamed/part_000`,
  first component): `handleNumSpeakersChange`, `handleSubmit`
  (ffmpeg convert/probe → multipart transcribe) and `handleDownloadDocx`
  with its content-disposition filename extraction.

Network and engine calls are modelled as explicit effect lists; the
responses of the external services are inputs (environment records), so
every handler is a pure function from (environment, state) to
(state, effects).  JavaScript truthiness on nullable strings (`null` and
`""` are falsy) is modelled by `jsOrStr` / `jsTruthyStr`.
-/

namespace Transcribe

/-- A transcript turn: speaker label plus utterance text. -/
structure TranscriptTurn where
  speaker : String
  text : String
deriving DecidableEq, Repr

/-- The optional case-metadata fields, passed through unmodified. -/
structure CaseInfo where
  case_name : Option String := none
  case_number : Option String := none
  firm_name : Option String := none
  input_date : Option String := none
  input_time : Option String := none
  location : Option String := none
deriving DecidableEq, Repr

/-- The selected media asset: display name and declared MIME type. -/
structure FileInfo where
  name : String
  mime : String
deriving DecidableEq, Repr

/-- JavaScript `a || b` for a nullable string `a`: `null`/absent and the
empty string are falsy and fall through to `b`. -/
def jsOrStr (a : Option String) (b : String) : String :=
  match a with
  | none => b
  | some s => if s = "" then b else s

/-- JavaScript truthiness of a nullable string: `null` and `""` are falsy. -/
def jsTruthyStr : Option String → Bool
  | none => false
  | some s => s != ""

/-- JavaScript `s.trim()`: drop leading and trailing whitespace. -/
def jsTrim (s : String) : String :=
  String.mk ((s.data.dropWhile Char.isWhitespace).reverse.dropWhile
    Char.isWhitespace).reverse

/-- JavaScript `String(n).padStart(2, "0")` applied to a rendered number:
prepend zeros until the length is at least 2. -/
def padStart2 (s : String) : String :=
  String.mk (List.replicate (2 - s.length) '0') ++ s

/-- `hhmmss` from `page.tsx` (lines 21–24): maps the divisors
`[3600, 60, 1]` to `String(Math.floor(seconds / d) % 60).padStart(2, "0")`
and joins with `":"`.  Note the `% 60` is applied to all three components,
the hour component included. -/
def hhmmss (seconds : Nat) : String :=
  String.intercalate ":"
    (([3600, 60, 1] : List Nat).map fun d => padStart2 (toString (seconds / d % 60)))

/-- `formatDuration` from `part_000` (lines 70–75): hours `⌊s/3600⌋`
(not reduced mod 60), minutes `⌊(s % 3600)/60⌋`, seconds `⌊s % 60⌋`,
each zero-padded to two digits. -/
def formatDuration (seconds : Nat) : String :=
  let hours := seconds / 3600
  let minutes := seconds % 3600 / 60
  let secs := seconds % 60
  padStart2 (toString hours) ++ ":" ++ padStart2 (toString minutes) ++ ":"
    ++ padStart2 (toString secs)

/-- `m.replace(/['"]/g, '')`: drop double quotes and apostrophes
(code point 39). -/
def stripQuotes (s : String) : String :=
  String.mk (s.data.filter fun c => !(c == '"' || c.toNat == 39))

/-- JavaScript `xs.slice(0, e)` for a possibly negative `e`: a negative
end index counts from the end of the array (clamped at 0). -/
def jsSliceTo (e : Int) (xs : List String) : List String :=
  if e < 0 then xs.take ((xs.length : Int) + e).toNat else xs.take e.toNat

/-- Characters before the first `'.'` of a character list. -/
def splitHeadAux : List Char → List Char
  | [] => []
  | c :: cs => if c = '.' then [] else c :: splitHeadAux cs

/-- JavaScript `name.split(".")[0]`: the segment before the first dot
(the whole name when it has no dot). -/
def jsSplitFirst (name : String) : String :=
  String.mk (splitHeadAux name.data)

/-- JavaScript `name.split(".").pop()`: the segment after the last dot
(the whole name when it has no dot). -/
def jsSplitLast (name : String) : String :=
  String.mk (splitHeadAux name.data.reverse).reverse

/-- The default suggested export filename, identical in both variants:
`` `${file?.name.split(".")[0] || "transcript"}_transcript.docx` ``.
The stem is the portion of the display name before the *first* dot;
when there is no file or the stem is empty it falls back to
`"transcript"`. -/
def docxDownloadName (f : Option FileInfo) : String :=
  let stem :=
    match f with
    | none => "transcript"
    | some fi =>
      let h := jsSplitFirst fi.name
      if h = "" then "transcript" else h
  stem ++ "_transcript.docx"

/-- Observable external effects issued by the handlers: network calls,
ffmpeg engine operations, and the browser download trigger. -/
inductive Eff where
  | presign (filename mime : String)
  | putUpload (url : String)
  | transcribe (r2ObjectKey : Option String) (speaker_names : Option (List String))
  | writeInput (name : String)
  | execConvert
  | readOutput
  | execProbe
  | cleanupBoth (geminiFileName r2ObjectKey : String)
  | cleanupGemini (geminiFileName : String)
  | cleanupR2 (r2ObjectKey : String)
  | generateDocx (geminiFileName : String)
  | saveAs (filename : String)
deriving DecidableEq, Repr

namespace Page

/-- The React state of the presigned variant (`page.tsx`, lines 38–51),
one field per `useState` hook.  `numSpeakers` is an `Int` because the
handlers compute it with `Math.max`/`parseInt`. -/
structure PageState where
  file : Option FileInfo
  caseInfo : CaseInfo
  specifySpeakers : Bool
  numSpeakers : Int
  speakerNames : List String
  isProcessing : Bool
  statusMessage : String
  error : Option String
  transcriptTurns : Option (List TranscriptTurn)
  geminiFileName : Option String
  r2ObjectKey : Option String
  audioDuration : Option String
deriving DecidableEq, Repr

/-- `handleFileChange` (`page.tsx`, lines 57–66): store the (possibly
absent) new selection and clear transcript, error, status, both handles
and the duration.  Case metadata, speaker settings and `isProcessing`
are untouched. -/
def handleFileChange (f : Option FileInfo) (s : PageState) : PageState :=
  { s with file := f, transcriptTurns := none, error := none, statusMessage := "",
           geminiFileName := none, r2ObjectKey := none, audioDuration := none }

/-- `changeNumSpeakers` (`page.tsx`, lines 73–81).  `v` is the result of
`parseInt(e.target.value || "1", 10)`; a number input's value is either
`""` (which the `|| "1"` turns into `1`) or a numeric string, so the
parse result is modelled as an `Int`.  The count is clamped with
`Math.max(1, ·)` and the name list is padded with `""` or truncated
(`slice(0, n)`). -/
def changeNumSpeakers (v : Int) (st : Int × List String) : Int × List String :=
  let n := max 1 v
  let out := st.2
  let names :=
    if (out.length : Int) < n then
      out ++ List.replicate (n - (out.length : Int)).toNat ""
    else
      jsSliceTo n out
  (n, names)

/-- The `speaker_names` field of the transcription request
(`page.tsx`, lines 125–130): `null` unless `specifySpeakers`, otherwise
`speakerNames.filter((s) => s.trim())` — entries whose trim is empty are
dropped. -/
def speakerNamesField (specify : Bool) (names : List String) : Option (List String) :=
  if specify then some (names.filter fun s => jsTrim s != "") else none

/-- Outcome of the `/transcribe` fetch in the presigned variant.  The
body is read with a bare `await tr.json()` (`page.tsx`, line 134, no
`.catch`), *before* the `ok` check, so an unparseable body rejects
there whatever the status is: `parseError` carries the thrown parse
error's message, which the shared catch surfaces verbatim.  With a
parsed body: on non-success the body's optional `detail` plus the
transport status text; on success the turns, the Gemini handle and the
optional echoed `r2_object_key`. -/
inductive TranscribeRes where
  | parseError (msg : String)
  | ok (turns : List TranscriptTurn) (geminiFileName : String) (r2ObjectKey : Option String)
  | fail (detail : Option String) (statusText : String)
deriving DecidableEq, Repr

/-- Environment of one `handleSubmit` run: the responses of the presign
endpoint (`Except` carries the failing HTTP status), the PUT upload, the
transcription endpoint, and the duration probe (`getDuration` resolves
with a second count or rejects). -/
structure SubmitEnv where
  presignRes : Except Nat (String × String)
  uploadRes : Except Nat Unit
  transcribeRes : TranscribeRes
  probeRes : Option Nat
deriving Repr

/-- The code run when the `/transcribe` response arrives successfully
(`page.tsx`, lines 137–142): store the turns, the Gemini handle,
`tj.r2_object_key || object_key`, and move the status to the duration
step.  Factored out because, in the browser, this continuation executes
against whatever the session state is once the awaited fetch resolves. -/
def applyTranscribeOk (turns : List TranscriptTurn) (gemini : String)
    (r2Key : Option String) (objectKey : String) (s : PageState) : PageState :=
  { s with transcriptTurns := some turns, geminiFileName := some gemini,
           r2ObjectKey := some (jsOrStr r2Key objectKey),
           statusMessage := "Calculating duration…" }

/-- `handleSubmit` (`page.tsx`, lines 89–153): guard on a selected file,
then presign → PUT upload → transcribe → duration probe, with every
thrown error landing in the shared catch (`setError`, clear status) and
the `finally` clearing `isProcessing`. -/
def handleSubmit (env : SubmitEnv) (s : PageState) : PageState × List Eff :=
  match s.file with
  | none => ({ s with error := some "Choose a file first." }, [])
  | some f =>
    let s1 := { s with isProcessing := true, error := none,
                       statusMessage := "Creating secure upload…" }
    match env.presignRes with
    | .error status =>
        ({ s1 with error := some ("presign " ++ toString status),
                   statusMessage := "", isProcessing := false },
         [.presign f.name f.mime])
    | .ok (uploadUrl, objectKey) =>
      let s2 := { s1 with statusMessage := "Uploading file…" }
      match env.uploadRes with
      | .error status =>
          ({ s2 with error := some ("upload " ++ toString status),
                     statusMessage := "", isProcessing := false },
           [.presign f.name f.mime, .putUpload uploadUrl])
      | .ok _ =>
        let s3 := { s2 with statusMessage := "Requesting transcript…" }
        let effs := [Eff.presign f.name f.mime, .putUpload uploadUrl,
                     .transcribe (some objectKey)
                       (speakerNamesField s3.specifySpeakers s3.speakerNames)]
        match env.transcribeRes with
        | .parseError msg =>
            ({ s3 with error := some msg,
                       statusMessage := "", isProcessing := false }, effs)
        | .fail detail statusText =>
            ({ s3 with error := some (jsOrStr detail statusText),
                       statusMessage := "", isProcessing := false }, effs)
        | .ok turns gemini r2Key =>
          let s4 := applyTranscribeOk turns gemini r2Key objectKey s3
          match env.probeRes with
          | none =>
              ({ s4 with error := some "Could not read duration",
                         statusMessage := "", isProcessing := false }, effs)
          | some secs =>
              ({ s4 with audioDuration := some (hhmmss secs),
                         statusMessage := "Transcription complete!",
                         isProcessing := false }, effs)

/-- `cleanupFiles` (`page.tsx`, lines 155–175): no-op unless a handle is
truthy; otherwise issue the matching cleanup call.  On a resolved fetch
both handles are cleared; if the fetch rejects (`fetchOk = false`) the
catch only replaces the status message and both handles are left in
place. -/
def cleanupFiles (fetchOk : Bool) (s : PageState) : PageState × List Eff :=
  if !jsTruthyStr s.geminiFileName && !jsTruthyStr s.r2ObjectKey then
    (s, [])
  else
    let s1 := { s with statusMessage := "Cleaning up…" }
    let call : Eff :=
      if jsTruthyStr s.geminiFileName && jsTruthyStr s.r2ObjectKey then
        .cleanupBoth (s.geminiFileName.getD "") (s.r2ObjectKey.getD "")
      else if jsTruthyStr s.geminiFileName then
        .cleanupGemini (s.geminiFileName.getD "")
      else
        .cleanupR2 (s.r2ObjectKey.getD "")
    if fetchOk then
      ({ s1 with geminiFileName := none, r2ObjectKey := none,
                 statusMessage := "Temporary files deleted." }, [call])
    else
      ({ s1 with statusMessage := "Cleanup attempted (see server logs for details)." },
       [call])

/-- Outcome of the `/generate_docx` fetch.  On non-success the body is
`Option (Option String)`: outer `none` when `resp.json()` rejects
(the `.catch(() => ({}))` yields an empty object), inner option the
`detail` field.  On success the optional `content-disposition` header. -/
inductive DocxRes where
  | ok (disposition : Option String)
  | fail (status : Nat) (statusText : String) (body : Option (Option String))
deriving DecidableEq, Repr

/-- `handleDownloadDocx` (`page.tsx`, lines 177–219): guard
`!transcriptTurns || !geminiFileName` fails locally with
"Nothing to download."; otherwise POST `/generate_docx`; on success the
blob is saved under the default name (the response's disposition header
is never consulted in this variant); on failure
`d.detail || resp.statusText` (or "Download failed" when that is empty)
becomes the error. -/
def handleDownloadDocx (res : DocxRes) (s : PageState) : PageState × List Eff :=
  if s.transcriptTurns = none ∨ jsTruthyStr s.geminiFileName = false then
    ({ s with error := some "Nothing to download." }, [])
  else
    let s1 := { s with isProcessing := true, statusMessage := "Generating DOCX…" }
    match res with
    | .fail _ statusText body =>
        let msg := jsOrStr body.join statusText
        ({ s1 with error := some (jsOrStr (some msg) "Download failed"),
                   statusMessage := "", isProcessing := false },
         [.generateDocx (s.geminiFileName.getD "")])
    | .ok _ =>
        ({ s1 with statusMessage := "DOCX downloaded.", isProcessing := false },
         [.generateDocx (s.geminiFileName.getD ""),
          .saveAs (docxDownloadName s.file)])

end Page

namespace Part000

/-- The React state of the transcoding variant (`part_000`, first
component, lines 24–35).  It has no `r2ObjectKey`; `ffmpegLoaded`
records whether the engine initialisation effect succeeded. -/
structure P0State where
  file : Option FileInfo
  caseInfo : CaseInfo
  specifySpeakers : Bool
  numSpeakers : Int
  speakerNames : List String
  isProcessing : Bool
  transcriptTurns : Option (List TranscriptTurn)
  error : Option String
  statusMessage : String
  geminiFileName : Option String
  audioDuration : Option String
  ffmpegLoaded : Bool
deriving DecidableEq, Repr

/-- `handleNumSpeakersChange` (`part_000`, lines 103–117).  `v` is the
`parseInt(event.target.value, 10)` result, `none` standing for `NaN`;
`parseInt(...) || 1` maps both `NaN` and `0` to `1` but keeps negative
counts.  There is no `Math.max` clamp in this variant, and
`slice(0, count)` is taken with the possibly negative `count`. -/
def handleNumSpeakersChange (v : Option Int) (st : Int × List String) :
    Int × List String :=
  let count : Int := match v with | none => 1 | some k => if k = 0 then 1 else k
  let prev := st.2
  let names :=
    if (prev.length : Int) < count then
      prev ++ List.replicate (count - (prev.length : Int)).toNat ""
    else
      jsSliceTo count prev
  (count, names)

/-- The `speaker_names` field (`part_000`, lines 220–223): `null` unless
`specifySpeakers`, otherwise
`speakerNames.filter(name => name && name.trim() !== '')`. -/
def speakerNamesField (specify : Bool) (names : List String) : Option (List String) :=
  if specify then some (names.filter fun n => n != "" && jsTrim n != "") else none

/-- The non-success message of the `/transcribe` call (`part_000`,
lines 238–241): `errorData` is `response.json()` or, when the body fails
to parse, `{ detail: response.statusText }`; the thrown message is
`` `API Error (${status}): ${errorData.detail || 'Unknown error'}` ``.
`body = none` models the parse failure, `body = some d` a parsed body
with optional `detail` field `d`. -/
def transcribeErrMsg (status : Nat) (statusText : String)
    (body : Option (Option String)) : String :=
  let errorDataDetail : Option String :=
    match body with
    | none => some statusText
    | some d => d
  "API Error (" ++ toString status ++ "): " ++ jsOrStr errorDataDetail "Unknown error"

/-- `` `input.${file.name.split('.').pop() || 'mp4'}` `` (and the `'mp3'`
variant in the audio branch): scratch filename in the engine's virtual
filesystem. -/
def inputFileName (name : String) (dfltExt : String) : String :=
  let ext := jsSplitLast name
  "input." ++ (if ext = "" then dfltExt else ext)

/-- Outcome of the multipart `/transcribe` fetch of this variant. -/
inductive TranscribeRes where
  | ok (turns : List TranscriptTurn) (geminiFileName : String)
  | fail (status : Nat) (statusText : String) (body : Option (Option String))
deriving Repr

/-- Environment of one `handleSubmit` run of the transcoding variant:
outcomes of the ffmpeg scratch writes / conversion / read (an `Except`
carries the engine's thrown message), the swallowed ffprobe attempt,
and the transcription response. -/
structure SubmitEnv where
  writeInputRes : Except String Unit
  convertRes : Except String Unit
  readOutputRes : Except String Unit
  writeInput2Res : Except String Unit
  probeOk : Bool
  transcribeRes : TranscribeRes
deriving Repr

/-- The shared catch of `handleSubmit` (`part_000`, lines 251–257):
`setError(err.message || "An unexpected error occurred.")`, clear the
status, and (via `finally`) clear `isProcessing`. -/
def catchErr (s : P0State) (msg : String) : P0State :=
  { s with error := some (jsOrStr (some msg) "An unexpected error occurred."),
           statusMessage := "", isProcessing := false }

/-- The tail of `handleSubmit` once `audioBlob` is set (`part_000`,
lines 215–249): `setAudioDuration(calculatedDuration)` — and
`calculatedDuration` is still `null`, it is never assigned — then the
multipart `/transcribe` call and its response handling. -/
def afterBlob (env : SubmitEnv) (s : P0State) (effs : List Eff) :
    P0State × List Eff :=
  let s5 := { s with audioDuration := none,
                     statusMessage := "Preparing data for upload..." }
  let s6 := { s5 with statusMessage := "Uploading audio and requesting transcript..." }
  let effs2 := effs ++ [Eff.transcribe none
    (speakerNamesField s6.specifySpeakers s6.speakerNames)]
  match env.transcribeRes with
  | .fail status statusText body =>
      (catchErr s6 (transcribeErrMsg status statusText body), effs2)
  | .ok turns gemini =>
      ({ s6 with transcriptTurns := some turns, geminiFileName := some gemini,
                 statusMessage := "Transcription complete!",
                 isProcessing := false }, effs2)

/-- `handleSubmit` (`part_000`, lines 119–258): guard on a selected
file, clear the previous run's outputs, then branch on the MIME type —
video is converted through ffmpeg (failing fast when the engine is not
loaded), audio is used as-is (with a swallowed ffprobe attempt when the
engine is loaded), anything else throws `Unsupported file type`.  The
ffprobe attempts sit in their own `try`/`catch` and never fail the
run. -/
def handleSubmit (env : SubmitEnv) (s : P0State) : P0State × List Eff :=
  match s.file with
  | none => ({ s with error := some "Please select a file first." }, [])
  | some f =>
    let s1 := { s with isProcessing := true, error := none, transcriptTurns := none,
                       statusMessage := "Starting process...",
                       geminiFileName := none, audioDuration := none }
    if f.mime.startsWith "video/" then
      if !s1.ffmpegLoaded then
        (catchErr s1 "FFmpeg not loaded. Cannot convert video.", [])
      else
        let inName := inputFileName f.name "mp4"
        let s2 := { s1 with statusMessage := "Converting video to MP3 audio..." }
        match env.writeInputRes with
        | .error e => (catchErr s2 e, [.writeInput inName])
        | .ok _ =>
          match env.convertRes with
          | .error e => (catchErr s2 e, [.writeInput inName, .execConvert])
          | .ok _ =>
            let s3 := { s2 with statusMessage := "Reading converted audio..." }
            match env.readOutputRes with
            | .error e => (catchErr s3 e, [.writeInput inName, .execConvert, .readOutput])
            | .ok _ =>
              match env.writeInput2Res with
              | .error e =>
                  (catchErr s3 e,
                   [.writeInput inName, .execConvert, .readOutput, .writeInput inName])
              | .ok _ =>
                let s4 := { s3 with statusMessage := "Video converted successfully." }
                afterBlob env s4
                  [.writeInput inName, .execConvert, .readOutput,
                   .writeInput inName, .execProbe]
    else if f.mime.startsWith "audio/" then
      let s2 := { s1 with statusMessage := "Processing audio file..." }
      if s2.ffmpegLoaded then
        let inName := inputFileName f.name "mp3"
        match env.writeInputRes with
        | .error e => (catchErr s2 e, [.writeInput inName])
        | .ok _ => afterBlob env s2 [.writeInput inName, .execProbe]
      else
        afterBlob env s2 []
    else
      (catchErr s1 ("Unsupported file type: " ++ f.mime), [])

/-- The suggested filename of `handleDownloadDocx` (`part_000`,
lines 305–315): default to the shared `docxDownloadName`; when a
`content-disposition` header is present, contains `"attachment"`, and
the filename regex captured a truthy group, that capture with quote
characters stripped wins.  `regexCapture` stands for `matches[1]` of
`/filename[^;=\n]*=((['"]).*?\2|[^;\n]*)/.exec(disposition)` — the
regex engine itself is modelled as an input. -/
def downloadName (f : Option FileInfo) (disposition : Option String)
    (regexCapture : Option String) : String :=
  let dflt := docxDownloadName f
  match disposition with
  | none => dflt
  | some d =>
    if "attachment".data <:+: d.data then
      match regexCapture with
      | some m => if m = "" then dflt else stripQuotes m
      | none => dflt
    else dflt

/-- The non-success message of `/generate_docx` (`part_000`,
lines 295–298), same shape as `transcribeErrMsg` with fallback
`'Failed to generate DOCX'`. -/
def docxErrMsg (status : Nat) (statusText : String)
    (body : Option (Option String)) : String :=
  let errorDataDetail : Option String :=
    match body with
    | none => some statusText
    | some d => d
  "API Error (" ++ toString status ++ "): "
    ++ jsOrStr errorDataDetail "Failed to generate DOCX"

/-- Environment of one `handleDownloadDocx` run: the fetch outcome plus
the filename-regex capture on the response's disposition header. -/
structure DocxEnv where
  res : Page.DocxRes
  regexCapture : Option String
deriving Repr

/-- `handleDownloadDocx` (`part_000`, lines 260–330): the (duplicated)
guard fails locally when the transcript or the Gemini handle is absent;
otherwise POST `/generate_docx`, save the blob under `downloadName` on
success, and on failure surface
`` `API Error (...)` `` (or the fallback) as the error. -/
def handleDownloadDocx (env : DocxEnv) (s : P0State) : P0State × List Eff :=
  if s.transcriptTurns = none ∨ jsTruthyStr s.geminiFileName = false then
    let msg := "No transcript available to download or missing file identifier."
    ({ s with error := some msg }, [])
  else
    let s1 := { s with error := none, statusMessage := "Generating DOCX...",
                       isProcessing := true }
    match env.res with
    | .fail status statusText body =>
        let msg := jsOrStr (some (docxErrMsg status statusText body))
          "Failed to download DOCX."
        ({ s1 with error := some msg, statusMessage := "", isProcessing := false },
         [.generateDocx (s.geminiFileName.getD "")])
    | .ok disposition =>
        ({ s1 with statusMessage := "DOCX downloaded successfully.",
                   isProcessing := false },
         [.generateDocx (s.geminiFileName.getD ""),
          .saveAs (downloadName s.file disposition env.regexCapture)])

end Part000

/-- An idle session of the presigned variant: the initial values of the
`useState` hooks in `page.tsx`. -/
def idlePage : Page.PageState :=
  { file := none, caseInfo := {}, specifySpeakers := false, numSpeakers := 1,
    speakerNames := [""], isProcessing := false, statusMessage := "", error := none,
    transcriptTurns := none, geminiFileName := none, r2ObjectKey := none,
    audioDuration := none }

/-- An idle session of the transcoding variant (engine loaded). -/
def idleP0 : Part000.P0State :=
  { file := none, caseInfo := {}, specifySpeakers := false, numSpeakers := 1,
    speakerNames := [""], isProcessing := false, transcriptTurns := none,
    error := none, statusMessage := "", geminiFileName := none,
    audioDuration := none, ffmpegLoaded := true }

/-- A `Ready` session of the presigned variant: transcript and both
handles present, selected file `a.b.mp3`. -/
def readyPage : Page.PageState :=
  { idlePage with
      file := some ⟨"a.b.mp3", "audio/mpeg"⟩,
      transcriptTurns := some [⟨"SPEAKER 1", "Hello."⟩],
      geminiFileName := some "g",
      r2ObjectKey := some "k" }

/-- A run environment in which presign, upload and transcription all
succeed and the duration probe rejects. -/
def envProbeFail : Page.SubmitEnv :=
  { presignRes := .ok ("u", "k"), uploadRes := .ok (),
    transcribeRes := .ok [⟨"SPEAKER 1", "Hello."⟩] "g" none, probeRes := none }

/-- A run environment in which presign and upload succeed and the
transcription response's body fails to parse, `await tr.json()`
rejecting with a JSON parse error. -/
def envParseErr : Page.SubmitEnv :=
  { presignRes := .ok ("u", "k"), uploadRes := .ok (),
    transcribeRes := .parseError "Unexpected token < in JSON", probeRes := none }

/-- An all-success run environment for the transcoding variant. -/
def envP0 : Part000.SubmitEnv :=
  { writeInputRes := .ok (), convertRes := .ok (), readOutputRes := .ok (),
    writeInput2Res := .ok (), probeOk := true,
    transcribeRes := .ok [⟨"SPEAKER 1", "Hello."⟩] "g" }

@[simp] lemma jsTruthyStr_none : jsTruthyStr none = false := rfl

@[simp] lemma jsTruthyStr_some (s : String) : jsTruthyStr (some s) = (s != "") := rfl

/-- C1 (counterexample): the claim says that after any release attempt —
success or failure — both handles are cleared so a second call is a
no-op.  On the state holding the Gemini handle `"g"`, a release whose
fetch rejects leaves the handle set, and a second `cleanupFiles` call
issues another network call. -/
theorem C1_release_counterexample :
    (Page.cleanupFiles false { idlePage with geminiFileName := some "g" }).1.geminiFileName
        = some "g"
      ∧ (Page.cleanupFiles false
          ((Page.cleanupFiles false { idlePage with geminiFileName := some "g" }).1)).2
        ≠ [] := by
  constructor
  · rfl
  · decide

/-- C1 (amended): `cleanupFiles` is a no-op when neither handle is set;
after a release whose fetch *resolves* both handles are cleared and any
repeated call is a no-op with no network effect; but after a release
whose fetch *rejects* both handles are retained unchanged (so a repeat
re-issues the release call). -/
theorem C1_release_amended :
    (∀ (b : Bool) (s : Page.PageState), jsTruthyStr s.geminiFileName = false →
      jsTruthyStr s.r2ObjectKey = false → Page.cleanupFiles b s = (s, []))
    ∧ (∀ s : Page.PageState,
      (jsTruthyStr s.geminiFileName || jsTruthyStr s.r2ObjectKey) = true →
      (Page.cleanupFiles true s).1.geminiFileName = none
        ∧ (Page.cleanupFiles true s).1.r2ObjectKey = none)
    ∧ (∀ (b : Bool) (s : Page.PageState),
      Page.cleanupFiles b (Page.cleanupFiles true s).1
        = ((Page.cleanupFiles true s).1, []))
    ∧ (∀ s : Page.PageState,
      (Page.cleanupFiles false s).1.geminiFileName = s.geminiFileName
        ∧ (Page.cleanupFiles false s).1.r2ObjectKey = s.r2ObjectKey) := by
  refine ⟨?_, ?_, ?_, ?_⟩
  · intro b s h1 h2
    simp [Page.cleanupFiles, h1, h2]
  · intro s h
    rcases hg : jsTruthyStr s.geminiFileName <;> rcases hr : jsTruthyStr s.r2ObjectKey <;>
      simp [Page.cleanupFiles, hg, hr]
    simp [hg, hr] at h
  · intro b s
    rcases hg : jsTruthyStr s.geminiFileName <;> rcases hr : jsTruthyStr s.r2ObjectKey <;>
      simp [Page.cleanupFiles, hg, hr]
  · intro s
    rcases hg : jsTruthyStr s.geminiFileName <;> rcases hr : jsTruthyStr s.r2ObjectKey <;>
      simp [Page.cleanupFiles, hg, hr]

/-- C1 (witness): the amended release behaviour evaluated on concrete
states — the handle-free idle session is untouched, and a successful
release of a live Gemini handle clears it. -/
theorem C1_release_amended_witness :
    Page.cleanupFiles true idlePage = (idlePage, [])
      ∧ (Page.cleanupFiles true
          { idlePage with geminiFileName := some "g" }).1.geminiFileName = none :=
  ⟨C1_release_amended.1 true idlePage rfl rfl,
   (C1_release_amended.2.1 { idlePage with geminiFileName := some "g" } (by decide)).1⟩

/-- C2 (counterexample): the claim says a duration-probe failure never
surfaces as a user-visible error.  In the presigned variant, a run in
which every network step succeeds but `getDuration` rejects ends with
`error = some "Could not read duration"` (and the completion status
message is never shown), even though the transcript was stored. -/
theorem C2_probe_counterexample :
    (Page.handleSubmit envProbeFail
        { idlePage with file := some ⟨"a.mp3", "audio/mpeg"⟩ }).1.error
        = some "Could not read duration"
      ∧ (Page.handleSubmit envProbeFail
          { idlePage with file := some ⟨"a.mp3", "audio/mpeg"⟩ }).1.statusMessage = ""
      ∧ (Page.handleSubmit envProbeFail
          { idlePage with file := some ⟨"a.mp3", "audio/mpeg"⟩ }).1.transcriptTurns
        = some [⟨"SPEAKER 1", "Hello."⟩] := by
  refine ⟨rfl, rfl, rfl⟩

/-- C2 (amended): in the presigned variant a duration-probe failure does
not invalidate the run's transcript or handles — they remain exactly the
transcription response's values — and the duration field is left
unchanged (the result degrades to an unknown duration); but the failure
*does* surface as the user-visible error "Could not read duration" and
clears the status message, so the completion status is never shown. -/
theorem C2_probe_amended :
    ∀ (env : Page.SubmitEnv) (s : Page.PageState) (f : FileInfo)
      (turns : List TranscriptTurn) (gemini : String) (r2Key : Option String)
      (url key : String),
    s.file = some f → env.presignRes = .ok (url, key) → env.uploadRes = .ok () →
    env.transcribeRes = .ok turns gemini r2Key → env.probeRes = none →
    (Page.handleSubmit env s).1.transcriptTurns = some turns
      ∧ (Page.handleSubmit env s).1.geminiFileName = some gemini
      ∧ (Page.handleSubmit env s).1.r2ObjectKey = some (jsOrStr r2Key key)
      ∧ (Page.handleSubmit env s).1.audioDuration = s.audioDuration
      ∧ (Page.handleSubmit env s).1.error = some "Could not read duration"
      ∧ (Page.handleSubmit env s).1.statusMessage = ""
      ∧ (Page.handleSubmit env s).1.isProcessing = false := by
  intro env s f turns gemini r2Key url key hf hp hu ht hpr
  simp [Page.handleSubmit, Page.applyTranscribeOk, hf, hp, hu, ht, hpr]

/-- C2 (witness): the amended probe-failure behaviour at the concrete
probe-failing environment. -/
theorem C2_probe_amended_witness :
    (Page.handleSubmit envProbeFail
        { idlePage with file := some ⟨"a.mp3", "audio/mpeg"⟩ }).1.transcriptTurns
        = some [⟨"SPEAKER 1", "Hello."⟩]
      ∧ (Page.handleSubmit envProbeFail
          { idlePage with file := some ⟨"a.mp3", "audio/mpeg"⟩ }).1.audioDuration
        = none := by
  have h := C2_probe_amended envProbeFail
    { idlePage with file := some ⟨"a.mp3", "audio/mpeg"⟩ }
    ⟨"a.mp3", "audio/mpeg"⟩ [⟨"SPEAKER 1", "Hello."⟩] "g" none "u" "k"
    rfl rfl rfl rfl rfl
  exact ⟨h.1, h.2.2.2.1⟩

/-- C3 (counterexample): the claim says that after the asset is replaced
mid-run, the in-flight run's eventual response is discarded and never
applied.  There is no run invalidation in the code: applying the
transcribe-success continuation of the superseded run to the state
produced by `handleFileChange` stores the stale transcript and stale
Gemini handle. -/
theorem C3_invalidate_counterexample :
    (Page.handleFileChange (some ⟨"b.mp3", "audio/mpeg"⟩)
        { idlePage with isProcessing := true }).transcriptTurns = none
      ∧ (Page.applyTranscribeOk [⟨"SPEAKER 1", "stale line"⟩] "oldG" none "oldKey"
          (Page.handleFileChange (some ⟨"b.mp3", "audio/mpeg"⟩)
            { idlePage with isProcessing := true })).transcriptTurns
        = some [⟨"SPEAKER 1", "stale line"⟩]
      ∧ (Page.applyTranscribeOk [⟨"SPEAKER 1", "stale line"⟩] "oldG" none "oldKey"
          (Page.handleFileChange (some ⟨"b.mp3", "audio/mpeg"⟩)
            { idlePage with isProcessing := true })).geminiFileName = some "oldG" := by
  refine ⟨rfl, rfl, rfl⟩

/-- C3 (amended): replacing the selected asset does return the session
to an idle shape — transcript, error, status, both handles and duration
are cleared, the new selection stored — but the in-flight run's eventual
success is *not* discarded: its continuation still applies the stale
transcript, Gemini handle and object key on top of the reset state,
because no generation counter or cancellation exists. -/
theorem C3_invalidate_amended :
    ∀ (f2 : Option FileInfo) (s : Page.PageState),
    (Page.handleFileChange f2 s).file = f2
      ∧ (Page.handleFileChange f2 s).transcriptTurns = none
      ∧ (Page.handleFileChange f2 s).error = none
      ∧ (Page.handleFileChange f2 s).statusMessage = ""
      ∧ (Page.handleFileChange f2 s).geminiFileName = none
      ∧ (Page.handleFileChange f2 s).r2ObjectKey = none
      ∧ (Page.handleFileChange f2 s).audioDuration = none
      ∧ ∀ (turns : List TranscriptTurn) (g : String) (r2 : Option String) (k : String),
          (Page.applyTranscribeOk turns g r2 k (Page.handleFileChange f2 s)).transcriptTurns
              = some turns
            ∧ (Page.applyTranscribeOk turns g r2 k
                (Page.handleFileChange f2 s)).geminiFileName = some g
            ∧ (Page.applyTranscribeOk turns g r2 k
                (Page.handleFileChange f2 s)).r2ObjectKey = some (jsOrStr r2 k) := by
  intro f2 s
  refine ⟨rfl, rfl, rfl, rfl, rfl, rfl, rfl, ?_⟩
  intro turns g r2 k
  exact ⟨rfl, rfl, rfl⟩

/-- C4: in both variants the `speaker_names` field of the transcription
request is `null` when generic labeling is selected, and otherwise every
entry of the submitted list has a non-empty trim — blank and
whitespace-only identifiers are filtered out. -/
theorem C4_speaker_names :
    ∀ (names : List String),
    (Page.speakerNamesField false names = none
      ∧ Part000.speakerNamesField false names = none)
    ∧ (∀ l, Page.speakerNamesField true names = some l → ∀ x ∈ l, jsTrim x ≠ "")
    ∧ (∀ l, Part000.speakerNamesField true names = some l → ∀ x ∈ l, jsTrim x ≠ "") := by
  intro names
  refine ⟨⟨rfl, rfl⟩, ?_, ?_⟩
  · intro l hl x hx
    simp [Page.speakerNamesField] at hl
    subst hl
    simp [List.mem_filter] at hx
    simpa using hx.2
  · intro l hl x hx
    simp [Part000.speakerNamesField] at hl
    subst hl
    simp [List.mem_filter] at hx
    simpa using hx.2.2

/-- C4 (witness): with generic labeling nothing is sent, and the member
`"A"` of the filtered list `["A"]` (from input `["A", " "]`) indeed has
a non-empty trim. -/
theorem C4_speaker_names_witness :
    Page.speakerNamesField false ["A", " "] = none ∧ jsTrim "A" ≠ "" :=
  ⟨(C4_speaker_names ["A", " "]).1.1,
   (C4_speaker_names ["A", " "]).2.1 ["A"] (by decide) "A" (by decide)⟩

/-- C5 (counterexample): the claim says the failure message falls back
to the transport status text when no `detail` is present.  In the
transcoding variant, a 502 response whose body parses without a
`detail` field produces `"API Error (502): Unknown error"` — neither the
(absent) detail nor the status text `"Bad Gateway"`. -/
theorem C5_error_detail_counterexample :
    Part000.transcribeErrMsg 502 "Bad Gateway" (some none)
        = "API Error (502): Unknown error"
      ∧ Part000.transcribeErrMsg 502 "Bad Gateway" (some none) ≠ "Bad Gateway" := by
  constructor
  · rfl
  · decide

/-- C5 (amended): in the presigned variant, when the non-success body
parses, the failure message is `tj.detail || tr.statusText` — exactly
the detail when it is present and non-empty, the status text otherwise;
but when the body of a non-success response fails to parse, the bare
`await tr.json()` rejects first and the run's error is the JSON parse
error's own message — never the detail or the status text — with the
transcript left untouched.  In the transcoding variant the message is
the composed string `API Error (status): D`, where `D` is the detail
when the body parses with a non-empty one, the status text only when
the body fails to parse, and `"Unknown error"` when the body parses
without a detail. -/
theorem C5_error_detail_amended :
    (∀ (env : Page.SubmitEnv) (s : Page.PageState) (f : FileInfo)
        (detail : Option String) (statusText url key : String),
      s.file = some f → env.presignRes = .ok (url, key) → env.uploadRes = .ok () →
      env.transcribeRes = .fail detail statusText →
      (Page.handleSubmit env s).1.error = some (jsOrStr detail statusText))
    ∧ (∀ (env : Page.SubmitEnv) (s : Page.PageState) (f : FileInfo)
        (msg url key : String),
      s.file = some f → env.presignRes = .ok (url, key) → env.uploadRes = .ok () →
      env.transcribeRes = .parseError msg →
      (Page.handleSubmit env s).1.error = some msg
        ∧ (Page.handleSubmit env s).1.transcriptTurns = s.transcriptTurns)
    ∧ (∀ (d statusText : String), d ≠ "" → jsOrStr (some d) statusText = d)
    ∧ (∀ statusText : String, jsOrStr none statusText = statusText)
    ∧ (∀ (status : Nat) (statusText d : String), d ≠ "" →
      Part000.transcribeErrMsg status statusText (some (some d))
        = "API Error (" ++ toString status ++ "): " ++ d)
    ∧ (∀ (status : Nat) (statusText : String), statusText ≠ "" →
      Part000.transcribeErrMsg status statusText none
        = "API Error (" ++ toString status ++ "): " ++ statusText)
    ∧ (∀ (status : Nat) (statusText : String),
      Part000.transcribeErrMsg status statusText (some none)
        = "API Error (" ++ toString status ++ "): " ++ "Unknown error") := by
  refine ⟨?_, ?_, ?_, ?_, ?_, ?_, ?_⟩
  · intro env s f detail statusText url key hf hp hu ht
    simp [Page.handleSubmit, hf, hp, hu, ht]
  · intro env s f msg url key hf hp hu ht
    simp [Page.handleSubmit, hf, hp, hu, ht]
  · intro d st h
    simp [jsOrStr, h]
  · intro st
    rfl
  · intro status st d hd
    simp [Part000.transcribeErrMsg, jsOrStr, hd]
  · intro status st h
    simp [Part000.transcribeErrMsg, jsOrStr, h]
  · intro status st
    rfl

/-- C5 (witness): the amended message rules evaluated concretely — a
present detail wins in the presigned variant, an unparseable
non-success body surfaces the parse error's message there, and a parsed
404 body with detail `"missing"` yields the composed message in the
transcoding variant. -/
theorem C5_error_detail_amended_witness :
    jsOrStr (some "boom") "Internal Server Error" = "boom"
      ∧ (Page.handleSubmit envParseErr
          { idlePage with file := some ⟨"a.mp3", "audio/mpeg"⟩ }).1.error
        = some "Unexpected token < in JSON"
      ∧ Part000.transcribeErrMsg 404 "Not Found" (some (some "missing"))
        = "API Error (" ++ toString 404 ++ "): " ++ "missing" :=
  ⟨C5_error_detail_amended.2.2.1 "boom" "Internal Server Error" (by decide),
   (C5_error_detail_amended.2.1 envParseErr
      { idlePage with file := some ⟨"a.mp3", "audio/mpeg"⟩ }
      ⟨"a.mp3", "audio/mpeg"⟩ "Unexpected token < in JSON" "u" "k"
      rfl rfl rfl rfl).1,
   C5_error_detail_amended.2.2.2.2.1 404 "Not Found" "missing" (by decide)⟩

/-- C6: in both variants, invoking document export while the transcript
or the transcription handle is absent fails locally with the
nothing-to-export error, performs no network (or other) call, and leaves
every session field except the error message unchanged. -/
theorem C6_export_guard :
    (∀ (res : Page.DocxRes) (s : Page.PageState),
      s.transcriptTurns = none ∨ s.geminiFileName = none →
      Page.handleDownloadDocx res s
        = ({ s with error := some "Nothing to download." }, []))
    ∧ (∀ (env : Part000.DocxEnv) (s : Part000.P0State),
      s.transcriptTurns = none ∨ s.geminiFileName = none →
      Part000.handleDownloadDocx env s
        = ({ s with error := some "No transcript available to download or missing file identifier." }, [])) := by
  constructor
  · intro res s h
    have hc : s.transcriptTurns = none ∨ jsTruthyStr s.geminiFileName = false := by
      rcases h with h | h
      · exact Or.inl h
      · right; rw [h]; rfl
    simp [Page.handleDownloadDocx, hc]
  · intro env s h
    have hc : s.transcriptTurns = none ∨ jsTruthyStr s.geminiFileName = false := by
      rcases h with h | h
      · exact Or.inl h
      · right; rw [h]; rfl
    simp [Part000.handleDownloadDocx, hc]

/-- C6 (witness): exporting from the idle sessions (no transcript, no
handle) only sets the error and issues no call. -/
theorem C6_export_guard_witness :
    Page.handleDownloadDocx (.ok none) idlePage
        = ({ idlePage with error := some "Nothing to download." }, [])
      ∧ Part000.handleDownloadDocx ⟨.ok none, none⟩ idleP0
        = ({ idleP0 with error := some "No transcript available to download or missing file identifier." }, []) :=
  ⟨C6_export_guard.1 (.ok none) idlePage (Or.inl rfl),
   C6_export_guard.2 ⟨.ok none, none⟩ idleP0 (Or.inl rfl)⟩

/-- C7 (counterexample): the claim says a service-supplied filename in
the `content-disposition` metadata wins.  In the presigned variant the
header is never consulted: with the service supplying
`served.docx`, the saved name is still `a_transcript.docx` (also showing
the stem is the part before the *first* dot of `a.b.mp3`), while the
transcoding variant's extraction would have produced `served.docx`. -/
theorem C7_filename_counterexample :
    (Page.handleDownloadDocx (.ok (some "attachment; filename=\"served.docx\""))
        readyPage).2
        = [.generateDocx "g", .saveAs "a_transcript.docx"]
      ∧ Part000.downloadName (some ⟨"a.b.mp3", "audio/mpeg"⟩)
          (some "attachment; filename=\"served.docx\"") (some "\"served.docx\"")
        = "served.docx"
      ∧ ("a_transcript.docx" : String) ≠ "served.docx" := by
  refine ⟨by decide, by decide, by decide⟩

/-- C7 (amended): on a successful export the presigned variant always
saves under the default name — the portion of the display name before
the first dot (or `"transcript"`), suffixed `_transcript.docx` — and
ignores the response's disposition metadata entirely; only the
transcoding variant lets a disposition-supplied filename win, when the
header contains `"attachment"` and the filename regex captures a
non-empty group (stripped of quote characters), defaulting otherwise. -/
theorem C7_filename_amended :
    (∀ (d : Option String) (s : Page.PageState),
      s.transcriptTurns ≠ none → jsTruthyStr s.geminiFileName = true →
      (Page.handleDownloadDocx (.ok d) s).2
        = [.generateDocx (s.geminiFileName.getD ""),
           .saveAs (docxDownloadName s.file)])
    ∧ (∀ (f : Option FileInfo) (dd m : String),
      "attachment".data <:+: dd.data → m ≠ "" →
      Part000.downloadName f (some dd) (some m) = stripQuotes m)
    ∧ (∀ (f : Option FileInfo) (cap : Option String),
      Part000.downloadName f none cap = docxDownloadName f)
    ∧ (∀ (f : Option FileInfo) (dd : String) (cap : Option String),
      ¬ ("attachment".data <:+: dd.data) →
      Part000.downloadName f (some dd) cap = docxDownloadName f) := by
  refine ⟨?_, ?_, ?_, ?_⟩
  · intro d s ht hg
    have hcond : ¬ (s.transcriptTurns = none ∨ jsTruthyStr s.geminiFileName = false) := by
      rintro (h | h)
      · exact ht h
      · rw [hg] at h
        cases h
    simp [Page.handleDownloadDocx, hcond]
  · intro f dd m hinf hm
    simp [Part000.downloadName, hinf, hm]
  · intro f cap
    rfl
  · intro f dd cap hinf
    simp [Part000.downloadName, hinf]

/-- C7 (witness): the amended filename rules at concrete inputs — the
presigned variant saves `a_transcript.docx` even though a disposition is
present, and the transcoding variant's extraction takes the stripped
capture. -/
theorem C7_filename_amended_witness :
    (Page.handleDownloadDocx (.ok (some "attachment; filename=x.docx")) readyPage).2
        = [.generateDocx "g", .saveAs "a_transcript.docx"]
      ∧ Part000.downloadName none (some "attachment; filename=x.docx") (some "x.docx")
        = "x.docx" := by
  constructor
  · have h := C7_filename_amended.1 (some "attachment; filename=x.docx") readyPage
      (by decide) (by decide)
    simpa using h
  · have h := C7_filename_amended.2.1 none "attachment; filename=x.docx" "x.docx"
      (by decide) (by decide)
    simpa using h

/-- C8 (counterexample): the claim says both formatters render
`⌊s/3600⌋` hours and are equivalent for every non-negative second count.
At `s = 216000` (sixty hours) `hhmmss` reduces the hour component
mod 60 and yields `"00:00:00"`, while `formatDuration` yields
`"60:00:00"`. -/
theorem C8_duration_format_counterexample :
    hhmmss 216000 = "00:00:00" ∧ formatDuration 216000 = "60:00:00"
      ∧ hhmmss 216000 ≠ formatDuration 216000 := by
  refine ⟨by decide, by decide, by decide⟩

/-- C8 (amended): the two duration formatters agree — both rendering
`⌊s/3600⌋` hours, `⌊s/60⌋ mod 60` minutes and `s mod 60` seconds, each
zero-padded to two digits — for every second count below 216000 (i.e.
whenever the hour component is below 60); beyond that `hhmmss` wraps the
hour component mod 60 while `formatDuration` does not. -/
theorem C8_duration_format_amended :
    ∀ s : Nat, s < 216000 → hhmmss s = formatDuration s := by
  intro s h
  have h1 : s / 3600 % 60 = s / 3600 :=
    Nat.mod_eq_of_lt (Nat.div_lt_of_lt_mul (by omega))
  have h2 : s % 3600 / 60 = s / 60 % 60 := by
    rw [show (3600 : Nat) = 60 * 60 from rfl, Nat.mod_mul_right_div_self]
  simp [hhmmss, formatDuration, String.intercalate, String.intercalate.go,
        String.append_assoc, h1, h2, Nat.div_one]

/-- C8 (witness): the formatters agree at 3725 seconds (1 h 2 min 5 s). -/
theorem C8_duration_format_amended_witness :
    hhmmss 3725 = formatDuration 3725 :=
  C8_duration_format_amended 3725 (by decide)

/-- C9 (counterexample): the claim says the identifier list is resized
so that its length always equals the declared count.  In the transcoding
variant the count is not clamped: a parsed value of `-3` is stored as
the speaker count while `slice(0, -3)` truncates the list to length 0,
breaking the invariant. -/
theorem C9_resize_counterexample :
    Part000.handleNumSpeakersChange (some (-3)) (1, [""]) = (-3, [])
      ∧ ((([] : List String).length : Int) ≠ (-3 : Int)) := by
  constructor
  · decide
  · decide

/-- C9 (amended): in the presigned variant, whose handler clamps the
parsed count with `Math.max(1, ·)`, the resized list's length always
equals the stored count; in the transcoding variant the same invariant
holds exactly when the computed count is at least 1 (which `|| 1`
guarantees for `NaN` and `0` but not for negative input). -/
theorem C9_resize_amended :
    (∀ (v : Int) (st : Int × List String),
      ((Page.changeNumSpeakers v st).2.length : Int) = (Page.changeNumSpeakers v st).1)
    ∧ (∀ (v : Option Int) (st : Int × List String),
      1 ≤ (Part000.handleNumSpeakersChange v st).1 →
      ((Part000.handleNumSpeakersChange v st).2.length : Int)
        = (Part000.handleNumSpeakersChange v st).1) := by
  constructor
  · intro v st
    simp only [Page.changeNumSpeakers, jsSliceTo]
    split_ifs with h1 h2
    · simp only [List.length_append, List.length_replicate]
      omega
    · omega
    · simp only [List.length_take]
      omega
  · intro v st h
    simp only [Part000.handleNumSpeakersChange, jsSliceTo] at h ⊢
    split_ifs with h1 h2
    · simp only [List.length_append, List.length_replicate]
      omega
    · omega
    · simp only [List.length_take]
      omega

/-- C9 (witness): the amended invariant at concrete inputs — the
presigned handler clamps `-5` to one speaker and keeps the length equal,
and the transcoding handler growing from one to four names keeps it as
well. -/
theorem C9_resize_amended_witness :
    (((Page.changeNumSpeakers (-5) (3, ["A", "B"])).2.length : Int)
        = (Page.changeNumSpeakers (-5) (3, ["A", "B"])).1)
      ∧ (((Part000.handleNumSpeakersChange (some 4) (1, [""])).2.length : Int)
        = (Part000.handleNumSpeakersChange (some 4) (1, [""])).1) :=
  ⟨C9_resize_amended.1 (-5) (3, ["A", "B"]),
   C9_resize_amended.2 (some 4) (1, [""]) (by decide)⟩

/-- C10: in both variants, submitting with no file selected only sets
the error message to the choose-a-file prompt and returns — no effect is
issued and every other session field is unchanged. -/
theorem C10_no_file_guard :
    (∀ (env : Page.SubmitEnv) (s : Page.PageState), s.file = none →
      Page.handleSubmit env s = ({ s with error := some "Choose a file first." }, []))
    ∧ (∀ (env : Part000.SubmitEnv) (s : Part000.P0State), s.file = none →
      Part000.handleSubmit env s
        = ({ s with error := some "Please select a file first." }, [])) := by
  constructor
  · intro env s h
    simp [Page.handleSubmit, h]
  · intro env s h
    simp [Part000.handleSubmit, h]

/-- C10 (witness): submitting the idle sessions (no file selected) only
sets the prompt in both variants. -/
theorem C10_no_file_guard_witness :
    Page.handleSubmit envProbeFail idlePage
        = ({ idlePage with error := some "Choose a file first." }, [])
      ∧ Part000.handleSubmit envP0 idleP0
        = ({ idleP0 with error := some "Please select a file first." }, []) :=
  ⟨C10_no_file_guard.1 envProbeFail idlePage rfl,
   C10_no_file_guard.2 envP0 idleP0 rfl⟩

end Transcribe
